import Mathlib

/-!
Verification of the indicator and regime-classification engine of
`src/app.py` (a single-symbol stock structure/volume diagnosis tool).

Numeric values (prices, volumes, averages) are modelled as rationals.
Pandas NaN ("insufficient data") is modelled as `Option.none`: the app
checks `pd.isna` before every comparison that matters, and the one place
a possibly-NaN value is compared directly (`Vol_MA5 > 0`) is modelled by
the fact that `NaN > 0` evaluates to `False` in pandas, i.e. the `none`
case takes the `else` branch.
-/

namespace StockApp

/-- The regime labels of the specification.  The source renders them as
Chinese headline strings: 數據加載中 = INSUFFICIENT_DATA,
多頭排列 = BULLISH_ALIGNED, 空頭/趨勢走空 = BEARISH,
橫盤整理/區間震盪 = CONSOLIDATING.  WEAKENING appears in the spec only. -/
inductive Regime where
  | INSUFFICIENT_DATA
  | BULLISH_ALIGNED
  | BEARISH
  | CONSOLIDATING
  | WEAKENING
deriving DecidableEq, Repr

/-- Last value of `series.rolling(n).mean()`: mean of the trailing `n`
entries, `none` (NaN) when fewer than `n` entries exist.
Embeds `df["Close"].rolling(n).mean().iloc[-1]` (src/app.py lines 65-67,
72-74) and the volume analogue (lines 152, 218). -/
def maLast (n : Nat) (xs : List ℚ) : Option ℚ :=
  if n ≤ xs.length ∧ n ≠ 0 then some ((xs.drop (xs.length - n)).sum / (n : ℚ))
  else none

/-- `df["MA37"].diff().iloc[-1]` (src/app.py line 80): difference of the
last two values of the 37-bar rolling mean; NaN (`none`) when either of
them is NaN. -/
def slope37 (closes : List ℚ) : Option ℚ :=
  match maLast 37 closes, maLast 37 closes.dropLast with
  | some x, some y => some (x - y)
  | _, _ => none

/-- The regime if/elif chain of src/app.py lines 156-171 (the identical
chain reappears at lines 227-237):
`any(pd.isna([m5, m13, m37]))` first, then
`curr_p > m37 and m5 > m13 > m37`, then `curr_p < m37`, else the
consolidation branch.  Neither `slope_37` nor `vol_ratio` occurs in any
branch condition. -/
def classify (curr_p : ℚ) (m5 m13 m37 : Option ℚ) : Regime :=
  match m5, m13, m37 with
  | some a, some b, some c =>
    if curr_p > c ∧ a > b ∧ b > c then Regime.BULLISH_ALIGNED
    else if curr_p < c then Regime.BEARISH
    else Regime.CONSOLIDATING
  | _, _, _ => Regime.INSUFFICIENT_DATA

/-- The whole pipeline from a close-price series to the regime label:
`curr_p = df["Close"].iloc[-1]` and the three rolling means feed the
chain above.  `none` for the empty series (the app calls `st.stop()`
before the indicator section when the frame is empty). -/
def classifySeries (closes : List ℚ) : Option Regime :=
  closes.getLast?.map (fun p =>
    classify p (maLast 5 closes) (maLast 13 closes) (maLast 37 closes))

/-- src/app.py line 153 (and its duplicate at line 219):
`vol_ratio = vol_today / vol_ma5 if vol_ma5 > 0 else 1.0`, where
`vol_ma5 = df["Vol_MA5"].iloc[-1]` may be NaN; `NaN > 0` is `False` in
pandas, so the NaN case also yields `1.0`.  `none` for the empty series
(unreachable in the app, which stops on an empty frame). -/
def volRatio (volumes : List ℚ) : Option ℚ :=
  volumes.getLast?.map (fun v =>
    match maLast 5 volumes with
    | some m => if m > 0 then v / m else 1
    | none => 1)

/-- Unrealized profit and loss, src/app.py lines 96-97. -/
structure PnL where
  amount : ℚ
  pct : ℚ
deriving DecidableEq, Repr

/-- The position branch of src/app.py lines 95-108:
`if cost_price > 0 and shares > 0` compute P&L, otherwise no P&L is
shown (the Undefined marker of the spec, modelled as `none`). -/
def evaluate (close cost shares : ℚ) : Option PnL :=
  if cost > 0 ∧ shares > 0 then
    some ⟨(close - cost) * shares, (close / cost - 1) * 100⟩
  else none

/-- Outcome of one `yf.Ticker(...).history(...)` call on one candidate:
either a returned frame (possibly empty) or a raised exception. -/
inductive FetchOutcome where
  | ok : List ℚ → FetchOutcome
  | err : FetchOutcome
deriving DecidableEq

/-- The candidate loop body of `fetch_stock_data` (src/app.py lines
21-29): for each suffix candidate, try the fetch; an exception is
swallowed (`except Exception: pass`) and the loop continues, an empty
frame also continues, a non-empty frame returns at once with its
qualified identifier; exhaustion returns `(empty, None)`. -/
def tryCandidates (fetch : String → FetchOutcome) : List String → List ℚ × Option String
  | [] => ([], none)
  | c :: rest =>
    match fetch c with
    | FetchOutcome.ok df => if df.isEmpty then tryCandidates fetch rest else (df, some c)
    | FetchOutcome.err => tryCandidates fetch rest

/-- src/app.py line 20: `sid = sid.strip().upper()`. -/
def normalize (s : String) : String := s.trim.toUpper

/-- `fetch_stock_data` (src/app.py lines 19-29): normalize the symbol,
then try the venue suffixes `.TW` and `.TWO` in that fixed order. -/
def fetch_stock_data (fetch : String → FetchOutcome) (sid : String) :
    List ℚ × Option String :=
  tryCandidates fetch [normalize sid ++ ".TW", normalize sid ++ ".TWO"]

/-- A 38-bar close series whose last bar sits in full bullish alignment
(close 30 above ma5 = 22 above ma13 = 206/13 above ma37 = 446/37) while
the 37-bar average is falling: the bar dropping out of the 37-window is
the old spike 50, so `slope37 = (30 - 50)/37 < 0`. -/
def bullishFallingSeries : List ℚ :=
  [50] ++ List.replicate 24 10 ++ List.replicate 8 12 ++ List.replicate 4 20 ++ [30]

/-- A concrete fetch collaborator for exercising `fetch_stock_data`:
the `.TW` candidate raises, the `.TWO` candidate returns one bar. -/
def fetchEx : String → FetchOutcome := fun c =>
  if c = normalize "5498" ++ ".TWO" then FetchOutcome.ok [1] else FetchOutcome.err

/-- Any undefined moving average short-circuits every later rule of the
chain (the `any(pd.isna(...))` guard at src/app.py line 156). -/
theorem classify_undef (p : ℚ) (m5 m13 m37 : Option ℚ)
    (h : m5 = none ∨ m13 = none ∨ m37 = none) :
    classify p m5 m13 m37 = Regime.INSUFFICIENT_DATA := by
  cases m5 <;> cases m13 <;> cases m37 <;> simp_all [classify]

/-- The if/elif chain produces exactly one of its four labels. -/
theorem classify_cases (p : ℚ) (m5 m13 m37 : Option ℚ) :
    classify p m5 m13 m37 = Regime.INSUFFICIENT_DATA ∨
    classify p m5 m13 m37 = Regime.BULLISH_ALIGNED ∨
    classify p m5 m13 m37 = Regime.BEARISH ∨
    classify p m5 m13 m37 = Regime.CONSOLIDATING := by
  cases m5 <;> cases m13 <;> cases m37 <;>
    first
    | (left; rfl)
    | (simp only [classify]; split_ifs <;> tauto)

/-- A constant window averages to its constant value. -/
theorem maLast_replicate (n m : Nat) (c : ℚ) (hm : n ≤ m) (hn : n ≠ 0) :
    maLast n (List.replicate m c) = some c := by
  have hn' : (n : ℚ) ≠ 0 := Nat.cast_ne_zero.mpr hn
  unfold maLast
  rw [if_pos (by simp [hm, hn])]
  rw [List.length_replicate, List.drop_replicate, Nat.sub_sub_self hm,
    List.sum_replicate, nsmul_eq_mul]
  rw [mul_comm, mul_div_assoc, div_self hn', mul_one]

/-- C1, counterexample: on `bullishFallingSeries` the last bar has all
three averages defined, the slope of the 37-bar average is -20/37 < 0,
and yet the classifier returns BULLISH_ALIGNED — so the claimed
equivalence fails and a rising long-average slope is not a necessary
condition for the label: the code never consults `slope_37`. -/
theorem C1_slope_cex :
    classifySeries bullishFallingSeries = some Regime.BULLISH_ALIGNED ∧
    slope37 bullishFallingSeries = some (-20 / 37) ∧ ¬ ((0:ℚ) < -20 / 37) := by
  refine ⟨?_, ?_, by norm_num⟩
  · norm_num [classifySeries, classify, maLast, bullishFallingSeries, List.replicate,
      List.getLast?]
  · norm_num [slope37, maLast, bullishFallingSeries, List.replicate]

/-- C1, amended: for defined ma5, ma13, ma37 the classifier returns
BULLISH_ALIGNED if and only if close > ma37 and ma5 > ma13 > ma37; the
slope of the 37-bar average does not enter the condition at all. -/
theorem C1_bullish_iff (p a b c : ℚ) :
    classify p (some a) (some b) (some c) = Regime.BULLISH_ALIGNED ↔
      p > c ∧ a > b ∧ b > c := by
  simp only [classify]
  split
  · simp_all
  · split <;> simp_all

/-- C2, counterexample: with ma5 = 8, ma13 = 9, ma37 = 7 and close = 10
the claim's preconditions hold (close ≥ ma37, bullish rule unmatched,
ma5 < ma13) but the classifier returns CONSOLIDATING, not WEAKENING:
the code has no weakening branch. -/
theorem C2_weakening_cex :
    ((7:ℚ) ≤ 10 ∧ ¬ ((8:ℚ) > 9) ∧ (8:ℚ) < 9) ∧
    classify 10 (some 8) (some 9) (some 7) = Regime.CONSOLIDATING ∧
    classify 10 (some 8) (some 9) (some 7) ≠ Regime.WEAKENING := by
  have hc : classify 10 (some 8) (some 9) (some 7) = Regime.CONSOLIDATING := by
    norm_num [classify]
  exact ⟨by norm_num, hc, by rw [hc]; decide⟩

/-- C2, amended: when the averages are defined, close ≥ ma37 and
ma5 < ma13 (so the bullish rule cannot match), the classifier falls
through to the final branch and returns CONSOLIDATING — the source has
no dedicated WEAKENING branch. -/
theorem C2_weakening_amended (p a b c : ℚ) (hpc : c ≤ p) (hab : a < b) :
    classify p (some a) (some b) (some c) = Regime.CONSOLIDATING := by
  have h1 : ¬ (p > c ∧ a > b ∧ b > c) := by
    rintro ⟨-, h, -⟩
    exact absurd h (not_lt.mpr hab.le)
  simp [classify, h1, not_lt.mpr hpc]

/-- C2, witness for the amended theorem at close 20, ma5 = 3, ma13 = 5,
ma37 = 11. -/
theorem C2_weakening_amended_witness :
    classify 20 (some 3) (some 5) (some 11) = Regime.CONSOLIDATING :=
  C2_weakening_amended 20 3 5 11 (by norm_num) (by norm_num)

/-- C3: when the averages are defined and close < ma37 and ma5 < ma13
hold simultaneously (so the bullish rule cannot match), the classifier
returns BEARISH and never WEAKENING: the price-below-long-average rule
fires on its own, before any short/mid-crossover consideration. -/
theorem C3_bearish_priority (p a b c : ℚ) (hpc : p < c) (_hab : a < b) :
    classify p (some a) (some b) (some c) = Regime.BEARISH ∧
    classify p (some a) (some b) (some c) ≠ Regime.WEAKENING := by
  have h1 : ¬ (p > c ∧ a > b ∧ b > c) := by
    rintro ⟨h, -, -⟩
    exact absurd hpc (not_lt.mpr h.le)
  constructor <;> simp [classify, h1, hpc]

/-- C3, witness at close 5 < ma37 = 9 with ma5 = 2 < ma13 = 3. -/
theorem C3_bearish_priority_witness :
    classify 5 (some 2) (some 3) (some 9) = Regime.BEARISH ∧
    classify 5 (some 2) (some 3) (some 9) ≠ Regime.WEAKENING :=
  C3_bearish_priority 5 2 3 9 (by norm_num) (by norm_num)

/-- C4: if any of ma5, ma13, ma37 is undefined the classifier returns
INSUFFICIENT_DATA, pre-empting every other rule; consequently every
non-empty close series of fewer than 37 bars (whose 37-bar rolling mean
is therefore NaN at the last bar) classifies as INSUFFICIENT_DATA. -/
theorem C4_insufficient_data :
    (∀ (p : ℚ) (m5 m13 m37 : Option ℚ), (m5 = none ∨ m13 = none ∨ m37 = none) →
      classify p m5 m13 m37 = Regime.INSUFFICIENT_DATA) ∧
    (∀ closes : List ℚ, closes ≠ [] → closes.length < 37 →
      classifySeries closes = some Regime.INSUFFICIENT_DATA) := by
  constructor
  · exact classify_undef
  · intro closes hne hlen
    have hm : maLast 37 closes = none := by
      unfold maLast
      rw [if_neg]
      rintro ⟨h, -⟩
      omega
    unfold classifySeries
    rw [List.getLast?_eq_getLast closes hne]
    simp only [Option.map_some']
    rw [hm, classify_undef _ _ _ _ (Or.inr (Or.inr rfl))]

/-- C4, witness: a one-bar series classifies as INSUFFICIENT_DATA. -/
theorem C4_insufficient_data_witness :
    classifySeries [(1:ℚ)] = some Regime.INSUFFICIENT_DATA :=
  C4_insufficient_data.2 [(1:ℚ)] (by simp) (by simp)

/-- C5: with the 5-bar volume average defined and volumes non-negative,
the volume ratio is the last volume divided by that average, except that
it is exactly 1 when the average is 0 (the division branch is the
`vol_ma5 > 0` branch, so it is never taken with a zero divisor). -/
theorem C5_vol_ratio (vols : List ℚ) (v m : ℚ) (hv : vols.getLast? = some v)
    (hm : maLast 5 vols = some m) (hnn : ∀ x ∈ vols, 0 ≤ x) :
    volRatio vols = some (if m = 0 then 1 else v / m) := by
  have h0 : 0 ≤ m := by
    unfold maLast at hm
    split at hm
    · obtain rfl : _ = m := Option.some_inj.mp hm
      have hs : 0 ≤ (vols.drop (vols.length - 5)).sum :=
        List.sum_nonneg (fun x hx => hnn x (List.mem_of_mem_drop hx))
      positivity
    · exact absurd hm (by simp)
  unfold volRatio
  rw [hv]
  simp only [Option.map_some']
  rw [hm]
  by_cases hz : m = 0
  · simp [hz]
  · have hpos : (0:ℚ) < m := lt_of_le_of_ne h0 (Ne.symm hz)
    simp [hz, hpos]

/-- C5, witness: five zero-volume bars give average 0 and ratio 1. -/
theorem C5_vol_ratio_witness :
    volRatio [0, 0, 0, 0, 0] = some 1 := by
  have h := C5_vol_ratio [0, 0, 0, 0, 0] 0 0 (by rfl) (by norm_num [maLast])
    (by intro x hx; simp at hx; simp [hx])
  simpa using h

/-- C6: complete case analysis of the fixed-order candidate loop of
`fetch_stock_data`.  (1) Whenever the `.TW` fetch yields a non-empty
frame, its series and identifier are returned — for every behaviour of
the `.TWO` fetch, so the first candidate has strict priority.
(2) Whenever the `.TW` fetch raises or comes back empty and the `.TWO`
fetch yields a non-empty frame, the `.TWO` series and identifier are
returned with no error surfaced — covering in particular the claim's
throw-then-succeed scenario.  (3) Only when every candidate raises or
comes back empty does the NotFound result `(empty, None)` emerge. -/
theorem C6_resolve_fallback :
    (∀ (fetch : String → FetchOutcome) (sid : String) (df : List ℚ),
      fetch (normalize sid ++ ".TW") = FetchOutcome.ok df → df ≠ [] →
      fetch_stock_data fetch sid = (df, some (normalize sid ++ ".TW"))) ∧
    (∀ (fetch : String → FetchOutcome) (sid : String) (df : List ℚ),
      (fetch (normalize sid ++ ".TW") = FetchOutcome.err ∨
       fetch (normalize sid ++ ".TW") = FetchOutcome.ok []) →
      fetch (normalize sid ++ ".TWO") = FetchOutcome.ok df → df ≠ [] →
      fetch_stock_data fetch sid = (df, some (normalize sid ++ ".TWO"))) ∧
    (∀ (fetch : String → FetchOutcome) (cs : List String),
      (∀ c ∈ cs, fetch c = FetchOutcome.err ∨ fetch c = FetchOutcome.ok []) →
      tryCandidates fetch cs = ([], none)) := by
  refine ⟨?_, ?_, ?_⟩
  · intro fetch sid df h1 hne
    unfold fetch_stock_data
    unfold tryCandidates
    rw [h1]
    simp [List.isEmpty_iff, hne]
  · intro fetch sid df h1 h2 hne
    unfold fetch_stock_data
    unfold tryCandidates
    rcases h1 with h1 | h1 <;> rw [h1]
    · unfold tryCandidates
      rw [h2]
      simp [List.isEmpty_iff, hne]
    · show tryCandidates fetch [normalize sid ++ ".TWO"] =
        (df, some (normalize sid ++ ".TWO"))
      unfold tryCandidates
      rw [h2]
      simp [List.isEmpty_iff, hne]
  · intro fetch cs h
    induction cs with
    | nil => rfl
    | cons c rest ih =>
      have hc := h c (List.mem_cons_self c rest)
      have hrest : tryCandidates fetch rest = ([], none) :=
        ih (fun x hx => h x (List.mem_cons_of_mem c hx))
      unfold tryCandidates
      rcases hc with hc | hc <;> rw [hc]
      · exact hrest
      · simpa using hrest

/-- C6, witness: with `fetchEx` (err on `.TW`, one bar on `.TWO`),
`fetch_stock_data` surfaces the `.TWO` series and identifier. -/
theorem C6_resolve_fallback_witness :
    fetch_stock_data fetchEx "5498" = ([1], some (normalize "5498" ++ ".TWO")) := by
  apply C6_resolve_fallback.2.1
  · refine Or.inl ?_
    show fetchEx (normalize "5498" ++ ".TW") = FetchOutcome.err
    unfold fetchEx
    rw [if_neg]
    intro h
    have h2 := congrArg String.length h
    rw [String.length_append, String.length_append] at h2
    have h3 : (".TW" : String).length = 3 := rfl
    have h4 : (".TWO" : String).length = 4 := rfl
    omega
  · unfold fetchEx
    rw [if_pos rfl]
  · simp

/-- C7: the position evaluation is undefined (no P&L) when cost basis
or share count is not strictly positive, and otherwise yields
`(close - cost) * shares` and `(close / cost - 1) * 100`; in particular
evaluate(100, 0, 1000) is undefined and evaluate(120, 100, 1000) yields
amount 20000 and pct 20. -/
theorem C7_position_eval :
    (∀ close cost shares : ℚ, cost ≤ 0 ∨ shares ≤ 0 →
      evaluate close cost shares = none) ∧
    (∀ close cost shares : ℚ, 0 < cost → 0 < shares →
      evaluate close cost shares =
        some ⟨(close - cost) * shares, (close / cost - 1) * 100⟩) ∧
    evaluate 100 0 1000 = none ∧
    evaluate 120 100 1000 = some ⟨20000, 20⟩ := by
  refine ⟨?_, ?_, by norm_num [evaluate], by norm_num [evaluate]⟩
  · intro close cost shares h
    have hno : ¬ (cost > 0 ∧ shares > 0) := by
      rcases h with h | h
      · rintro ⟨hc, -⟩; exact absurd h (not_le.mpr hc)
      · rintro ⟨-, hs⟩; exact absurd h (not_le.mpr hs)
    simp [evaluate, hno]
  · intro close cost shares h1 h2
    simp [evaluate, h1, h2]

/-- C7, witness: zero cost basis yields no P&L. -/
theorem C7_position_eval_witness : evaluate 50 0 3 = none :=
  C7_position_eval.1 50 0 3 (Or.inl le_rfl)

/-- C8, counterexample: a series of exactly 37 constant bars satisfies
the claim's precondition (constant close for at least 37 bars) but its
37-bar-average slope is NaN (`none`), not 0, because the previous bar's
37-bar average is still undefined; the regime is CONSOLIDATING as
claimed. -/
theorem C8_slope_cex :
    ¬ slope37 (List.replicate 37 (1:ℚ)) = some 0 ∧
    slope37 (List.replicate 37 (1:ℚ)) = none ∧
    classifySeries (List.replicate 37 (1:ℚ)) = some Regime.CONSOLIDATING := by
  have hs : slope37 (List.replicate 37 (1:ℚ)) = none := by
    unfold slope37
    rw [List.dropLast_replicate]
    have h2 : maLast 37 (List.replicate (37 - 1) (1:ℚ)) = none := by
      unfold maLast
      rw [if_neg]
      rintro ⟨h, -⟩
      simp at h
    rw [maLast_replicate 37 37 1 le_rfl (by norm_num), h2]
  refine ⟨by rw [hs]; simp, hs, ?_⟩
  unfold classifySeries
  rw [List.getLast?_replicate, if_neg (by norm_num)]
  simp only [Option.map_some']
  rw [maLast_replicate 5 37 1 (by norm_num) (by norm_num),
    maLast_replicate 13 37 1 (by norm_num) (by norm_num),
    maLast_replicate 37 37 1 le_rfl (by norm_num)]
  simp [classify]

/-- C8, amended: a constant series of at least 37 bars has
ma5 = ma13 = ma37 = the constant and classifies as CONSOLIDATING; the
slope of the 37-bar average is 0 once at least 38 bars exist (at exactly
37 bars it is still undefined, see the counterexample). -/
theorem C8_constant_series (n : Nat) (c : ℚ) (h37 : 37 ≤ n) :
    maLast 5 (List.replicate n c) = some c ∧
    maLast 13 (List.replicate n c) = some c ∧
    maLast 37 (List.replicate n c) = some c ∧
    classifySeries (List.replicate n c) = some Regime.CONSOLIDATING ∧
    (38 ≤ n → slope37 (List.replicate n c) = some 0) := by
  have h5 : maLast 5 (List.replicate n c) = some c :=
    maLast_replicate 5 n c (by omega) (by norm_num)
  have h13 : maLast 13 (List.replicate n c) = some c :=
    maLast_replicate 13 n c (by omega) (by norm_num)
  have h37m : maLast 37 (List.replicate n c) = some c :=
    maLast_replicate 37 n c h37 (by norm_num)
  refine ⟨h5, h13, h37m, ?_, ?_⟩
  · unfold classifySeries
    rw [List.getLast?_replicate, if_neg (by omega)]
    simp only [Option.map_some']
    rw [h5, h13, h37m]
    simp [classify]
  · intro h38
    unfold slope37
    rw [List.dropLast_replicate, h37m,
      maLast_replicate 37 (n - 1) c (by omega) (by norm_num)]
    simp

/-- C8, witness for the amended theorem: 38 constant bars at 2. -/
theorem C8_constant_series_witness :
    classifySeries (List.replicate 38 (2:ℚ)) = some Regime.CONSOLIDATING ∧
    slope37 (List.replicate 38 (2:ℚ)) = some 0 :=
  ⟨(C8_constant_series 38 2 (by norm_num)).2.2.2.1,
   (C8_constant_series 38 2 (by norm_num)).2.2.2.2 (by norm_num)⟩

/-- C9: every output of the classifier is one of INSUFFICIENT_DATA,
BULLISH_ALIGNED, BEARISH or CONSOLIDATING — WEAKENING is unreachable —
and every input with defined averages, price at or above the long
average and ma5 < ma13 lands in CONSOLIDATING. -/
theorem C9_no_weakening :
    (∀ (p : ℚ) (m5 m13 m37 : Option ℚ),
      (classify p m5 m13 m37 = Regime.INSUFFICIENT_DATA ∨
       classify p m5 m13 m37 = Regime.BULLISH_ALIGNED ∨
       classify p m5 m13 m37 = Regime.BEARISH ∨
       classify p m5 m13 m37 = Regime.CONSOLIDATING) ∧
      classify p m5 m13 m37 ≠ Regime.WEAKENING) ∧
    (∀ p a b c : ℚ, c ≤ p → a < b →
      classify p (some a) (some b) (some c) = Regime.CONSOLIDATING) := by
  constructor
  · intro p m5 m13 m37
    have h := classify_cases p m5 m13 m37
    refine ⟨h, ?_⟩
    rcases h with h | h | h | h <;> rw [h] <;> decide
  · intro p a b c hpc hab
    have h1 : ¬ (p > c ∧ a > b ∧ b > c) := by
      rintro ⟨-, h, -⟩
      exact absurd h (not_lt.mpr hab.le)
    simp [classify, h1, not_lt.mpr hpc]

/-- C9, witness at close 12 ≥ ma37 = 11 with ma5 = 3 < ma13 = 4. -/
theorem C9_no_weakening_witness :
    classify 12 (some 3) (some 4) (some 11) = Regime.CONSOLIDATING :=
  C9_no_weakening.2 12 3 4 11 (by norm_num) (by norm_num)

/-- C10: for a non-empty series of fewer than 5 bars the 5-bar volume
average is NaN, the comparison `vol_ma5 > 0` is false, and the volume
ratio falls back to exactly 1. -/
theorem C10_short_series_vol_ratio (vols : List ℚ) (hne : vols ≠ [])
    (hlen : vols.length < 5) : volRatio vols = some 1 := by
  have hm : maLast 5 vols = none := by
    unfold maLast
    rw [if_neg]
    rintro ⟨h, -⟩
    omega
  unfold volRatio
  rw [List.getLast?_eq_getLast vols hne]
  simp [hm]

/-- C10, witness: a single-bar series has volume ratio 1. -/
theorem C10_short_series_vol_ratio_witness : volRatio [(3:ℚ)] = some 1 :=
  C10_short_series_vol_ratio [(3:ℚ)] (by simp) (by simp)

end StockApp
